import Mathlib

/-!
# Verification of the InnerLight OTP backend

Shallow embedding of the Express backend in `src/services/otpService.ts`
(the server part): the in-memory `otpStorage` map, `generateOTP`, the
`POST /api/send-otp` and `POST /api/verify-otp` handlers, and the periodic
cleanup sweep.  Time is in milliseconds (`Date.now()` values) as a `Nat`;
the single `Math.random()` draw is an explicit seed parameter; the outcome
of the outbound Fast2SMS call is an explicit `SmsOutcome` parameter.
-/

namespace OtpService

/-- A value stored in `otpStorage`: `{ otp: otp, expiresAt: Date.now() + 5*60*1000 }`. -/
structure Entry where
  otp : String
  expiresAt : Nat
deriving DecidableEq, Repr

/-- The in-memory store `const otpStorage = new Map()`, keyed by phone number.
A JavaScript `Map` has no duplicate keys; `Store.WF` captures that. -/
abbrev Store := List (String × Entry)

/-- `otpStorage.get(phone)`: the first binding for `phone`, if any. -/
def Store.get (s : Store) (phone : String) : Option Entry :=
  match s.find? (fun p => p.1 == phone) with
  | some p => some p.2
  | none => none

/-- `otpStorage.delete(phone)`: remove every binding for `phone`. -/
def Store.delete (s : Store) (phone : String) : Store :=
  s.filter (fun p => p.1 != phone)

/-- `otpStorage.set(phone, e)`: bind `phone` to `e`, replacing any prior binding. -/
def Store.set (s : Store) (phone : String) (e : Entry) : Store :=
  (phone, e) :: Store.delete s phone

/-- Well-formedness of a JavaScript `Map`: keys are pairwise distinct. -/
def Store.WF (s : Store) : Prop := (s.map Prod.fst).Nodup

/-- The expiry window: `5 * 60 * 1000` milliseconds (5 minutes = 300 seconds). -/
def otpExpiryMs : Nat := 5 * 60 * 1000

/-- The sweep period of `setInterval(..., 60 * 1000)`: 60 seconds. -/
def cleanupIntervalMs : Nat := 60 * 1000

/-- Embeds `generateOTP`: `Math.floor(100000 + Math.random() * 900000).toString()`.
`Math.random()` ranges over `[0,1)`, so the floored value ranges over the
integers `[100000, 999999]`; the draw is embedded as `r % 900000` for an
arbitrary seed `r`.  `Number.prototype.toString` renders an integer in that
range as its six decimal digit characters (most significant first). -/
def generateOTP (r : Nat) : String :=
  let n := 100000 + r % 900000
  ⟨[Nat.digitChar (n / 100000), Nat.digitChar (n / 10000 % 10),
    Nat.digitChar (n / 1000 % 10), Nat.digitChar (n / 100 % 10),
    Nat.digitChar (n / 10 % 10), Nat.digitChar (n % 10)]⟩

/-- The numeric value of a digit string (reference decoder for `generateOTP`). -/
def otpToNat (s : String) : Nat :=
  s.data.foldl (fun a c => 10 * a + (c.toNat - 48)) 0

/-- The zero-padded 6-character decimal rendering of `n` (reference form for
"zero-padded numeric string representation"). -/
def zeroPad6 (n : Nat) : String :=
  ⟨[Nat.digitChar (n / 100000 % 10), Nat.digitChar (n / 10000 % 10),
    Nat.digitChar (n / 1000 % 10), Nat.digitChar (n / 100 % 10),
    Nat.digitChar (n / 10 % 10), Nat.digitChar (n % 10)]⟩

/-- The phone validation `/^\d{10}$/.test(phone)`: exactly 10 ASCII digits. -/
def isValidPhone (phone : String) : Bool :=
  phone.length == 10 && phone.data.all Char.isDigit

/-- The environment read by the send handler: `process.env.FAST2SMS_API_KEY`
(`none` when unset) and whether `process.env.NODE_ENV === 'production'`. -/
structure Env where
  apiKey : Option String
  production : Bool
deriving DecidableEq, Repr

/-- Outcome of the `axios.post` call to Fast2SMS:
`ok` when `response.data.return === true`; `providerFailure` when the call
returns but `response.data.return !== true` (the `detail` is `response.data`);
`transportThrow` when the call throws/rejects (the `detail` is
`smsError.response?.data || smsError.message`). -/
inductive SmsOutcome where
  | ok : SmsOutcome
  | providerFailure (detail : String) : SmsOutcome
  | transportThrow (detail : String) : SmsOutcome
deriving DecidableEq, Repr

/-- The JSON response of `POST /api/send-otp`: HTTP status, the `success` and
`message` fields, `debug.otp` when present, and the `error` field when present. -/
structure SendResponse where
  status : Nat
  success : Bool
  message : String
  debug : Option String
  error : Option String
deriving DecidableEq, Repr

/-- The `POST /api/send-otp` handler.  Returns the response and the store after
the request.  Mirrors the source branch for branch: missing phone, invalid
phone, store the fresh OTP, dev-mode placeholder-key bypass, then the SMS
attempt with dev fallbacks and production 500s. -/
def sendOtp (s : Store) (now : Nat) (phone : String) (env : Env) (r : Nat)
    (sms : SmsOutcome) : SendResponse × Store :=
  if phone = "" then
    (⟨400, false, "Phone number is required", none, none⟩, s)
  else if !isValidPhone phone then
    (⟨400, false, "Invalid phone number. Must be 10 digits.", none, none⟩, s)
  else
    let otp := generateOTP r
    let s1 := Store.set s phone ⟨otp, now + otpExpiryMs⟩
    let isDev := !env.production
    let isPlaceholderKey := env.apiKey.getD "" == ""
    if isDev && isPlaceholderKey then
      (⟨200, true, "OTP sent successfully (Dev Mode)", some otp, none⟩, s1)
    else
      match sms with
      | .ok =>
          (⟨200, true, "OTP sent successfully",
            if isDev then some otp else none, none⟩, s1)
      | .providerFailure d =>
          if isDev then
            (⟨200, true, "OTP sent (Dev Fallback - Check Console)", some otp, none⟩, s1)
          else
            (⟨500, false, "Failed to send OTP via SMS Provider", none, some d⟩, s1)
      | .transportThrow d =>
          if isDev then
            (⟨200, true, "OTP sent (Dev Fallback - Check Console)", some otp, none⟩, s1)
          else
            (⟨500, false, "Failed to send OTP via SMS service", none, some d⟩, s1)

/-- Outcome of `POST /api/verify-otp`, one constructor per response of the
handler: missing fields, no pending code, expired, wrong code, verified. -/
inductive VerifyResult where
  | missingFields : VerifyResult
  | notFound : VerifyResult
  | expired : VerifyResult
  | mismatch : VerifyResult
  | verified : VerifyResult
deriving DecidableEq, Repr

/-- The `POST /api/verify-otp` handler.  `!phone || !otp` is the JavaScript
falsiness test; for strings the only falsy value is `""`.  Mirrors the source
order: existence, expiry (with eviction), then equality (with consumption). -/
def verifyOtp (s : Store) (now : Nat) (phone otp : String) :
    VerifyResult × Store :=
  if phone = "" || otp = "" then
    (.missingFields, s)
  else
    match Store.get s phone with
    | none => (.notFound, s)
    | some stored =>
      if now > stored.expiresAt then
        (.expired, Store.delete s phone)
      else if stored.otp = otp then
        (.verified, Store.delete s phone)
      else
        (.mismatch, s)

/-- One tick of the cleanup sweep `setInterval` callback: delete every entry
with `now > data.expiresAt`. -/
def cleanupExpired (s : Store) (now : Nat) : Store :=
  s.filter (fun p => !(now > p.2.expiresAt))

/-! ## Store lemmas -/

theorem Store.get_cons (a : String × Entry) (t : Store) (p : String) :
    Store.get (a :: t) p = if a.1 = p then some a.2 else Store.get t p := by
  by_cases h : a.1 = p
  · simp [Store.get, List.find?, h]
  · have hb : (a.1 == p) = false := by simp [h]
    simp [Store.get, List.find?, hb, h]

theorem Store.get_set_self (s : Store) (p : String) (e : Entry) :
    Store.get (Store.set s p e) p = some e := by
  simp [Store.get, Store.set, List.find?]

theorem Store.get_delete_self (s : Store) (p : String) :
    Store.get (Store.delete s p) p = none := by
  induction s with
  | nil => rfl
  | cons a t ih =>
    by_cases h : a.1 = p
    · simpa [Store.delete, List.filter_cons, h] using ih
    · simpa [Store.delete, Store.get, List.filter_cons, List.find?, h] using ih

theorem Store.get_eq_none_of_not_mem (s : Store) (p : String)
    (h : p ∉ s.map Prod.fst) : Store.get s p = none := by
  induction s with
  | nil => rfl
  | cons a t ih =>
    simp only [List.map_cons, List.mem_cons] at h
    push_neg at h
    rw [Store.get_cons, if_neg (Ne.symm h.1)]
    exact ih h.2

theorem isValidPhone_ne_empty (p : String) (h : isValidPhone p = true) :
    p ≠ "" := by
  intro hp
  subst hp
  simp [isValidPhone] at h

theorem generateOTP_ne_empty (r : Nat) : generateOTP r ≠ "" := by
  simp [generateOTP, String.ext_iff]

theorem sendOtp_store_set (s : Store) (now : Nat) (phone : String) (env : Env)
    (r : Nat) (sms : SmsOutcome) (h : isValidPhone phone = true) :
    (sendOtp s now phone env r sms).2 =
      Store.set s phone ⟨generateOTP r, now + otpExpiryMs⟩ := by
  have hne : phone ≠ "" := isValidPhone_ne_empty phone h
  unfold sendOtp
  rw [if_neg hne, if_neg (by simp [h])]
  cases sms <;> dsimp only <;> (repeat' split) <;> rfl

theorem cleanupExpired_get_of_kept (s : Store) (now : Nat) (p : String)
    (e : Entry) (hget : Store.get s p = some e) (halive : ¬ now > e.expiresAt) :
    Store.get (cleanupExpired s now) p = some e := by
  induction s with
  | nil => simp [Store.get, List.find?] at hget
  | cons a t ih =>
    rw [Store.get_cons] at hget
    by_cases h : a.1 = p
    · rw [if_pos h, Option.some.injEq] at hget
      subst hget
      simp [cleanupExpired, List.filter_cons, halive, Store.get_cons, h]
    · rw [if_neg h] at hget
      have := ih hget
      by_cases hk : now > a.2.expiresAt
      · simpa [cleanupExpired, List.filter_cons, hk] using this
      · simpa [cleanupExpired, List.filter_cons, hk, Store.get_cons, h]
          using this

theorem verifyOtp_of_get_some (s : Store) (now : Nat) (phone code : String)
    (e : Entry) (hp : phone ≠ "") (hc : code ≠ "")
    (hget : Store.get s phone = some e) :
    verifyOtp s now phone code =
      if now > e.expiresAt then (.expired, Store.delete s phone)
      else if e.otp = code then (.verified, Store.delete s phone)
      else (.mismatch, s) := by
  unfold verifyOtp
  rw [if_neg (by simp [hp, hc]), hget]

theorem verifyOtp_of_get_none (s : Store) (now : Nat) (phone code : String)
    (hp : phone ≠ "") (hc : code ≠ "")
    (hget : Store.get s phone = none) :
    verifyOtp s now phone code = (.notFound, s) := by
  unfold verifyOtp
  rw [if_neg (by simp [hp, hc]), hget]

/-! ## Claims -/

/-- C1: For every valid 10-digit phone, issuing a code and then verifying with
the returned code succeeds exactly once: the successful verify deletes the
stored entry (no binding for the phone remains), and a second verify with the
same code for the same phone fails with `NotFoundError`
("No OTP found for this phone number"). -/
theorem issue_then_verify_consumes_once (s : Store) (now t₁ t₂ : Nat)
    (phone : String) (env : Env) (r : Nat) (sms : SmsOutcome)
    (hphone : isValidPhone phone = true)
    (ht₁ : t₁ ≤ now + otpExpiryMs) :
    (verifyOtp (sendOtp s now phone env r sms).2 t₁ phone (generateOTP r)).1
        = .verified ∧
    Store.get (verifyOtp (sendOtp s now phone env r sms).2 t₁ phone
        (generateOTP r)).2 phone = none ∧
    (verifyOtp (verifyOtp (sendOtp s now phone env r sms).2 t₁ phone
        (generateOTP r)).2 t₂ phone (generateOTP r)).1 = .notFound := by
  have hp := isValidPhone_ne_empty phone hphone
  have hc := generateOTP_ne_empty r
  rw [sendOtp_store_set s now phone env r sms hphone]
  have hget : Store.get (Store.set s phone ⟨generateOTP r, now + otpExpiryMs⟩)
      phone = some ⟨generateOTP r, now + otpExpiryMs⟩ :=
    Store.get_set_self s phone _
  rw [verifyOtp_of_get_some _ t₁ phone (generateOTP r) _ hp hc hget,
    if_neg (show ¬ t₁ > now + otpExpiryMs by omega), if_pos rfl]
  refine ⟨rfl, Store.get_delete_self _ phone, ?_⟩
  rw [verifyOtp_of_get_none _ t₂ phone (generateOTP r) hp hc
    (Store.get_delete_self _ phone)]

/-- C1 witness: a concrete run of issue-verify-verify. -/
theorem issue_then_verify_consumes_once_witness :
    (verifyOtp (sendOtp [] 0 "9876543210" ⟨none, false⟩ 7 .ok).2 10
        "9876543210" (generateOTP 7)).1 = .verified ∧
    Store.get (verifyOtp (sendOtp [] 0 "9876543210" ⟨none, false⟩ 7 .ok).2 10
        "9876543210" (generateOTP 7)).2 "9876543210" = none ∧
    (verifyOtp (verifyOtp (sendOtp [] 0 "9876543210" ⟨none, false⟩ 7 .ok).2 10
        "9876543210" (generateOTP 7)).2 20 "9876543210" (generateOTP 7)).1
        = .notFound :=
  issue_then_verify_consumes_once [] 0 10 20 "9876543210" ⟨none, false⟩ 7 .ok
    (by decide) (by decide)

/-- C2: For every phone with a pending entry whose `expiresAt` is in the past,
verify fails with `ExpiredError` and evicts the entry as part of that check;
the expiry check precedes the equality comparison, so this holds for every
submitted code, including one equal to the stored code; afterwards no residual
entry remains for that phone. -/
theorem verify_expired_evicts (s : Store) (now : Nat) (phone code : String)
    (e : Entry) (hp : phone ≠ "") (hc : code ≠ "")
    (hget : Store.get s phone = some e)
    (hexp : now > e.expiresAt) :
    verifyOtp s now phone code = (.expired, Store.delete s phone) ∧
    Store.get (verifyOtp s now phone code).2 phone = none := by
  have h := verifyOtp_of_get_some s now phone code e hp hc hget
  rw [if_pos hexp] at h
  exact ⟨h, by rw [h]; exact Store.get_delete_self s phone⟩

/-- C2 witness: an expired entry whose stored code even matches the submitted
code is still rejected as expired and evicted. -/
theorem verify_expired_evicts_witness :
    verifyOtp [("9876543210", ⟨"123456", 5⟩)] 6 "9876543210" "123456" =
      (.expired, Store.delete [("9876543210", ⟨"123456", 5⟩)] "9876543210") ∧
    Store.get (verifyOtp [("9876543210", ⟨"123456", 5⟩)] 6 "9876543210"
      "123456").2 "9876543210" = none :=
  verify_expired_evicts [("9876543210", ⟨"123456", 5⟩)] 6 "9876543210"
    "123456" ⟨"123456", 5⟩ (by decide) (by decide) (by decide) (by decide)

/-- C4: For every phone with a pending, unexpired entry, verify with a
submitted code not equal to the stored code fails with `MismatchError` and
leaves the store unchanged, and a later verify with the correct code within
the expiry window still succeeds and consumes the entry. -/
theorem verify_mismatch_preserves (s : Store) (now : Nat) (phone code : String)
    (e : Entry) (hp : phone ≠ "") (hc : code ≠ "") (ho : e.otp ≠ "")
    (hget : Store.get s phone = some e)
    (halive : ¬ now > e.expiresAt)
    (hne : e.otp ≠ code) :
    verifyOtp s now phone code = (.mismatch, s) ∧
    (∀ t, ¬ t > e.expiresAt →
      verifyOtp s t phone e.otp = (.verified, Store.delete s phone)) := by
  constructor
  · have h := verifyOtp_of_get_some s now phone code e hp hc hget
    rwa [if_neg halive, if_neg hne] at h
  · intro t ht
    have h := verifyOtp_of_get_some s t phone e.otp e hp ho hget
    rwa [if_neg ht, if_pos rfl] at h

/-- C4 witness: a wrong code is rejected without touching the store, then the
right code verifies. -/
theorem verify_mismatch_preserves_witness :
    verifyOtp [("9876543210", ⟨"123456", 300000⟩)] 10 "9876543210" "654321" =
      (.mismatch, [("9876543210", ⟨"123456", 300000⟩)]) ∧
    (∀ t, ¬ t > (300000 : Nat) →
      verifyOtp [("9876543210", ⟨"123456", 300000⟩)] t "9876543210" "123456" =
        (.verified,
          Store.delete [("9876543210", ⟨"123456", 300000⟩)] "9876543210")) :=
  verify_mismatch_preserves [("9876543210", ⟨"123456", 300000⟩)] 10
    "9876543210" "654321" ⟨"123456", 300000⟩ (by decide) (by decide)
    (by decide) (by decide) (by decide) (by decide)

theorem Store.countP_delete (s : Store) (p : String) :
    List.countP (fun q => q.1 == p) (Store.delete s p) = 0 := by
  rw [List.countP_eq_zero]
  intro a ha
  have h := (List.mem_filter.mp ha).2
  simpa using h

theorem sendOtp_prod_failure (s : Store) (now : Nat) (phone : String)
    (env : Env) (r : Nat) (sms : SmsOutcome) (d : String)
    (hprod : env.production = true)
    (hphone : isValidPhone phone = true)
    (hsms : sms = .providerFailure d ∨ sms = .transportThrow d) :
    (sendOtp s now phone env r sms).1.status = 500 ∧
    (sendOtp s now phone env r sms).1.success = false ∧
    (sendOtp s now phone env r sms).1.error = some d := by
  have hp := isValidPhone_ne_empty phone hphone
  unfold sendOtp
  rcases hsms with h | h <;> subst h <;>
    rw [if_neg hp, if_neg (by simp [hphone])] <;> dsimp only <;>
    rw [if_neg (by simp [hprod]), if_neg (by simp [hprod])] <;>
    exact ⟨rfl, rfl, rfl⟩

/-- C3: When the runtime is flagged as production, no response of the send-otp
operation carries `debug.otp` — in particular a genuine production success
never exposes the raw code; by contraposition, `debug.otp` populated implies
the runtime is not production (the dev-mode bypass and the two transport
fallbacks are the only populating branches, and all require non-production). -/
theorem production_never_exposes_otp (s : Store) (now : Nat) (phone : String)
    (env : Env) (r : Nat) (sms : SmsOutcome)
    (hprod : env.production = true) :
    (sendOtp s now phone env r sms).1.debug = none := by
  unfold sendOtp
  cases sms <;> (repeat' split) <;> simp_all

/-- C3 witness: a production success response carries no `debug.otp`. -/
theorem production_never_exposes_otp_witness :
    (sendOtp [] 0 "9876543210" ⟨some "key", true⟩ 7 .ok).1.debug = none :=
  production_never_exposes_otp [] 0 "9876543210" ⟨some "key", true⟩ 7 .ok rfl

/-- C7: In production, when SMS transmission fails by either path (structured
provider failure or a thrown/rejected transport call), send-otp responds with
status 500, `success: false` (never a fabricated success), and surfaces the
provider error detail in the `error` field. -/
theorem production_transport_failure_surfaces (s : Store) (now : Nat)
    (phone : String) (env : Env) (r : Nat) (sms : SmsOutcome) (d : String)
    (hprod : env.production = true)
    (hphone : isValidPhone phone = true)
    (hsms : sms = .providerFailure d ∨ sms = .transportThrow d) :
    (sendOtp s now phone env r sms).1.status = 500 ∧
    (sendOtp s now phone env r sms).1.success = false ∧
    (sendOtp s now phone env r sms).1.error = some d :=
  sendOtp_prod_failure s now phone env r sms d hprod hphone hsms

/-- C7 witness: a concrete production transport throw yields a 500 with the
provider detail. -/
theorem production_transport_failure_surfaces_witness :
    (sendOtp [] 0 "9876543210" ⟨some "key", true⟩ 7
        (.transportThrow "socket hang up")).1.status = 500 ∧
    (sendOtp [] 0 "9876543210" ⟨some "key", true⟩ 7
        (.transportThrow "socket hang up")).1.success = false ∧
    (sendOtp [] 0 "9876543210" ⟨some "key", true⟩ 7
        (.transportThrow "socket hang up")).1.error = some "socket hang up" :=
  production_transport_failure_surfaces [] 0 "9876543210" ⟨some "key", true⟩ 7
    (.transportThrow "socket hang up") "socket hang up" rfl (by decide)
    (Or.inr rfl)

/-- C5 (amended): for every valid phone, issue unconditionally replaces any
existing pending code for that phone — afterwards the store binds the phone to
exactly the fresh code, with expiry recorded as issuance time + 300 seconds
(`otpExpiryMs = 300 * 1000` ms), and exactly one binding for that phone
exists — and verify with the previous code fails at every time, provided the
freshly generated code differs from the previous one. -/
theorem issue_replaces_previous (s : Store) (now : Nat) (phone : String)
    (env : Env) (r : Nat) (sms : SmsOutcome) (oldCode : String)
    (hphone : isValidPhone phone = true)
    (hold : oldCode ≠ "") (hdiff : oldCode ≠ generateOTP r) :
    Store.get (sendOtp s now phone env r sms).2 phone
      = some ⟨generateOTP r, now + otpExpiryMs⟩ ∧
    otpExpiryMs = 300 * 1000 ∧
    List.countP (fun q => q.1 == phone) (sendOtp s now phone env r sms).2
      = 1 ∧
    (∀ t, (verifyOtp (sendOtp s now phone env r sms).2 t phone oldCode).1
      ≠ .verified) := by
  have hp := isValidPhone_ne_empty phone hphone
  rw [sendOtp_store_set s now phone env r sms hphone]
  refine ⟨Store.get_set_self s phone _, rfl, ?_, ?_⟩
  · rw [Store.set, List.countP_cons_of_pos _ _ (by simp),
      Store.countP_delete s phone]
  · intro t
    rw [verifyOtp_of_get_some _ t phone oldCode _ hp hold
      (Store.get_set_self s phone ⟨generateOTP r, now + otpExpiryMs⟩)]
    by_cases hexp : t > now + otpExpiryMs
    · rw [if_pos (show t > (Entry.mk (generateOTP r) (now + otpExpiryMs)).expiresAt from hexp)]
      exact fun h => by cases h
    · rw [if_neg (show ¬ t > (Entry.mk (generateOTP r) (now + otpExpiryMs)).expiresAt from hexp),
        if_neg (show ¬ (Entry.mk (generateOTP r) (now + otpExpiryMs)).otp = oldCode from
          fun h => hdiff h.symm)]
      exact fun h => by cases h

/-- C5 counterexample: the claim "after re-issuance, verify with the previous
code fails" is false as stated — re-issuance can regenerate the very same
6-digit code (seed 23456 yields "123456" again), and then verify with the
previous code succeeds. -/
theorem issue_replaces_previous_counterexample :
    (verifyOtp (sendOtp [("9876543210", ⟨"123456", 1000000000⟩)] 0
      "9876543210" ⟨none, false⟩ 23456 .ok).2 10 "9876543210" "123456").1
      = .verified := by decide

/-- C5 witness: with a fresh code different from the previous one, the
previous code is replaced and fails verification. -/
theorem issue_replaces_previous_witness :
    Store.get (sendOtp [("9876543210", ⟨"111111", 999999999⟩)] 0 "9876543210"
        ⟨none, false⟩ 7 .ok).2 "9876543210"
      = some ⟨generateOTP 7, 0 + otpExpiryMs⟩ ∧
    (verifyOtp (sendOtp [("9876543210", ⟨"111111", 999999999⟩)] 0 "9876543210"
        ⟨none, false⟩ 7 .ok).2 50 "9876543210" "111111").1 ≠ .verified :=
  ⟨(issue_replaces_previous [("9876543210", ⟨"111111", 999999999⟩)] 0
      "9876543210" ⟨none, false⟩ 7 .ok "111111" (by decide) (by decide)
      (by decide)).1,
   (issue_replaces_previous [("9876543210", ⟨"111111", 999999999⟩)] 0
      "9876543210" ⟨none, false⟩ 7 .ok "111111" (by decide) (by decide)
      (by decide)).2.2.2 50⟩

/-- C9: at the exact expiry instant (current time equal to `expiresAt`) a
pending code is still valid: verify with the correct code succeeds (and
consumes the entry), and the cleanup sweep keeps the entry, because both
checks use the strict comparison `now > expiresAt`. -/
theorem valid_at_expiry_instant (s : Store) (phone : String) (e : Entry)
    (hp : phone ≠ "") (ho : e.otp ≠ "")
    (hget : Store.get s phone = some e) :
    verifyOtp s e.expiresAt phone e.otp = (.verified, Store.delete s phone) ∧
    Store.get (cleanupExpired s e.expiresAt) phone = some e := by
  constructor
  · have h := verifyOtp_of_get_some s e.expiresAt phone e.otp e hp ho hget
    rwa [if_neg (by omega), if_pos rfl] at h
  · exact cleanupExpired_get_of_kept s e.expiresAt phone e hget (by omega)

/-- C9 witness: a concrete entry verified and swept exactly at its expiry
timestamp. -/
theorem valid_at_expiry_instant_witness :
    verifyOtp [("9876543210", ⟨"123456", 300000⟩)] 300000 "9876543210"
        "123456"
      = (.verified, Store.delete [("9876543210", ⟨"123456", 300000⟩)]
          "9876543210") ∧
    Store.get (cleanupExpired [("9876543210", ⟨"123456", 300000⟩)] 300000)
        "9876543210" = some ⟨"123456", 300000⟩ :=
  valid_at_expiry_instant [("9876543210", ⟨"123456", 300000⟩)] "9876543210"
    ⟨"123456", 300000⟩ (by decide) (by decide) (by decide)

/-- C10: issuance stores the fresh code before any delivery attempt and never
rolls it back: even when send-otp answers a production transport failure with
status 500, the freshly generated code is bound to the phone (any prior code
is already replaced), and a subsequent verify with the undelivered code within
the window succeeds. -/
theorem undelivered_code_still_verifies (s : Store) (now t : Nat)
    (phone : String) (env : Env) (r : Nat) (sms : SmsOutcome) (d : String)
    (hphone : isValidPhone phone = true)
    (hprod : env.production = true)
    (hsms : sms = .providerFailure d ∨ sms = .transportThrow d)
    (ht : t ≤ now + otpExpiryMs) :
    (sendOtp s now phone env r sms).1.status = 500 ∧
    Store.get (sendOtp s now phone env r sms).2 phone
      = some ⟨generateOTP r, now + otpExpiryMs⟩ ∧
    (verifyOtp (sendOtp s now phone env r sms).2 t phone (generateOTP r)).1
      = .verified := by
  have hp := isValidPhone_ne_empty phone hphone
  have hc := generateOTP_ne_empty r
  refine ⟨(sendOtp_prod_failure s now phone env r sms d hprod hphone hsms).1,
    ?_, ?_⟩
  · rw [sendOtp_store_set s now phone env r sms hphone]
    exact Store.get_set_self s phone _
  · rw [sendOtp_store_set s now phone env r sms hphone,
      verifyOtp_of_get_some _ t phone (generateOTP r) _ hp hc
        (Store.get_set_self s phone ⟨generateOTP r, now + otpExpiryMs⟩),
      if_neg (show ¬ t > now + otpExpiryMs by omega), if_pos rfl]

/-- C10 witness: a concrete production transport failure, after which the
stored (undelivered) code still verifies. -/
theorem undelivered_code_still_verifies_witness :
    (sendOtp [] 0 "9876543210" ⟨some "key", true⟩ 7
        (.providerFailure "insufficient balance")).1.status = 500 ∧
    Store.get (sendOtp [] 0 "9876543210" ⟨some "key", true⟩ 7
        (.providerFailure "insufficient balance")).2 "9876543210"
      = some ⟨generateOTP 7, 0 + otpExpiryMs⟩ ∧
    (verifyOtp (sendOtp [] 0 "9876543210" ⟨some "key", true⟩ 7
        (.providerFailure "insufficient balance")).2 10 "9876543210"
        (generateOTP 7)).1 = .verified :=
  undelivered_code_still_verifies [] 0 10 "9876543210" ⟨some "key", true⟩ 7
    (.providerFailure "insufficient balance") "insufficient balance"
    (by decide) rfl (Or.inl rfl) (by decide)

theorem Store.not_mem_keys_filter (s : Store) (q : String × Entry → Bool)
    (p : String) (h : p ∉ s.map Prod.fst) :
    p ∉ (s.filter q).map Prod.fst := by
  intro hmem
  apply h
  rcases List.mem_map.mp hmem with ⟨a, ha, rfl⟩
  exact List.mem_map.mpr ⟨a, (List.mem_filter.mp ha).1, rfl⟩

theorem cleanupExpired_get_some (s : Store) (now : Nat) (p : String)
    (e : Entry) (hwf : Store.WF s)
    (h : Store.get (cleanupExpired s now) p = some e) :
    Store.get s p = some e ∧ ¬ now > e.expiresAt := by
  induction s with
  | nil => simp [cleanupExpired, Store.get, List.find?] at h
  | cons a t ih =>
    have hwf' := List.nodup_cons.mp hwf
    by_cases hk : now > a.2.expiresAt
    · rw [cleanupExpired, List.filter_cons, if_neg (by simp [hk])] at h
      by_cases hp : a.1 = p
      · subst hp
        have : Store.get (cleanupExpired t now) a.1 = none :=
          Store.get_eq_none_of_not_mem _ _
            (Store.not_mem_keys_filter t _ a.1 hwf'.1)
        rw [cleanupExpired] at this
        rw [this] at h
        cases h
      · have := ih hwf'.2 h
        rw [Store.get_cons, if_neg hp]
        exact this
    · rw [cleanupExpired, List.filter_cons, if_pos (by simp [hk])] at h
      rw [Store.get_cons] at h
      by_cases hp : a.1 = p
      · rw [if_pos hp] at h
        rw [Store.get_cons, if_pos hp]
        cases h
        exact ⟨rfl, hk⟩
      · rw [if_neg hp] at h
        have := ih hwf'.2 h
        rw [Store.get_cons, if_neg hp]
        exact this

/-- C8: one tick of the background sweep (which runs on a fixed
`cleanupIntervalMs = 60 * 1000` ms interval) evicts exactly the entries whose
expiry has passed and leaves every other entry unchanged: for a well-formed
store (a JavaScript `Map` has no duplicate keys), after a sweep at time `now`
a phone is bound to `e` iff it was bound to `e` before and
`¬ now > e.expiresAt` — in particular no remaining entry has
`expiresAt < now`, independent of any verify calls. -/
theorem cleanup_evicts_exactly_expired (s : Store) (now : Nat)
    (phone : String) (e : Entry) (hwf : Store.WF s) :
    (Store.get (cleanupExpired s now) phone = some e ↔
      Store.get s phone = some e ∧ ¬ now > e.expiresAt) ∧
    cleanupIntervalMs = 60 * 1000 := by
  refine ⟨⟨fun h => cleanupExpired_get_some s now phone e hwf h,
    fun h => cleanupExpired_get_of_kept s now phone e h.1 h.2⟩, rfl⟩

/-- C8 witness: after a sweep at time 10, the expired entry is gone and the
live entry is kept, on a concrete two-entry store. -/
theorem cleanup_evicts_exactly_expired_witness :
    ((Store.get (cleanupExpired [("9876543210", ⟨"111111", 5⟩),
        ("1234567890", ⟨"222222", 50⟩)] 10) "1234567890"
        = some ⟨"222222", 50⟩ ↔
      Store.get [("9876543210", ⟨"111111", 5⟩),
        ("1234567890", ⟨"222222", 50⟩)] "1234567890"
        = some ⟨"222222", 50⟩ ∧ ¬ (10 : Nat) > (50 : Nat)) ∧
    cleanupIntervalMs = 60 * 1000) :=
  cleanup_evicts_exactly_expired [("9876543210", ⟨"111111", 5⟩),
    ("1234567890", ⟨"222222", 50⟩)] 10 "1234567890" ⟨"222222", 50⟩
    (by unfold Store.WF; decide)

theorem digitChar_toNat (d : Nat) (h : d < 10) :
    (Nat.digitChar d).toNat = 48 + d := by
  interval_cases d <;> rfl

theorem digitChar_isDigit (d : Nat) (h : d < 10) :
    (Nat.digitChar d).isDigit = true := by
  interval_cases d <;> rfl

theorem otpToNat_mk6 (n : Nat) (h : n < 1000000) :
    otpToNat ⟨[Nat.digitChar (n / 100000), Nat.digitChar (n / 10000 % 10),
      Nat.digitChar (n / 1000 % 10), Nat.digitChar (n / 100 % 10),
      Nat.digitChar (n / 10 % 10), Nat.digitChar (n % 10)]⟩ = n := by
  have h1 : n / 100000 < 10 := by omega
  have h2 : n / 10000 % 10 < 10 := Nat.mod_lt _ (by norm_num)
  have h3 : n / 1000 % 10 < 10 := Nat.mod_lt _ (by norm_num)
  have h4 : n / 100 % 10 < 10 := Nat.mod_lt _ (by norm_num)
  have h5 : n / 10 % 10 < 10 := Nat.mod_lt _ (by norm_num)
  have h6 : n % 10 < 10 := Nat.mod_lt _ (by norm_num)
  unfold otpToNat
  dsimp only
  simp only [List.foldl]
  rw [digitChar_toNat _ h1, digitChar_toNat _ h2, digitChar_toNat _ h3,
    digitChar_toNat _ h4, digitChar_toNat _ h5, digitChar_toNat _ h6]
  omega

theorem otpToNat_generateOTP (r : Nat) :
    otpToNat (generateOTP r) = 100000 + r % 900000 := by
  have hlt : r % 900000 < 900000 := Nat.mod_lt _ (by norm_num)
  exact otpToNat_mk6 (100000 + r % 900000) (by omega)

theorem generateOTP_digits (r : Nat) :
    (generateOTP r).data.all Char.isDigit = true := by
  have hlt : r % 900000 < 900000 := Nat.mod_lt _ (by norm_num)
  show List.all _ Char.isDigit = true
  simp only [generateOTP, List.all_cons, List.all_nil, Bool.and_eq_true,
    Bool.and_true]
  refine ⟨?_, ?_, ?_, ?_, ?_, ?_⟩ <;> apply digitChar_isDigit <;> omega

theorem generateOTP_eq_zeroPad6 (r : Nat) :
    generateOTP r = zeroPad6 (100000 + r % 900000) := by
  have hlt : r % 900000 < 900000 := Nat.mod_lt _ (by norm_num)
  unfold generateOTP zeroPad6
  dsimp only
  rw [Nat.mod_eq_of_lt (show (100000 + r % 900000) / 100000 < 10 by omega)]

/-- C6: every generated OTP is a string of exactly 6 decimal digits; its
numeric value is `100000 + r` for seed `r < 900000`, hence lies in
`[100000, 999999]`; the string equals the zero-padded 6-character decimal
rendering of that value; and the map seed-to-code is a bijection between
`[0, 900000)` and codes for the values `[100000, 999999]` (the uniform
`Math.random()` draw therefore induces the uniform distribution on that
range). -/
theorem generateOTP_spec (r : Nat) (hr : r < 900000) :
    (generateOTP r).length = 6 ∧
    (generateOTP r).data.all Char.isDigit = true ∧
    otpToNat (generateOTP r) = 100000 + r ∧
    100000 ≤ otpToNat (generateOTP r) ∧
    otpToNat (generateOTP r) ≤ 999999 ∧
    generateOTP r = zeroPad6 (100000 + r) ∧
    (∀ r₂, r₂ < 900000 → generateOTP r = generateOTP r₂ → r = r₂) ∧
    (∀ n, 100000 ≤ n → n ≤ 999999 →
      ∃ r₂, r₂ < 900000 ∧ otpToNat (generateOTP r₂) = n) := by
  have hmod : r % 900000 = r := Nat.mod_eq_of_lt hr
  have hval : otpToNat (generateOTP r) = 100000 + r := by
    rw [otpToNat_generateOTP, hmod]
  refine ⟨rfl, generateOTP_digits r, hval, by omega, by omega, ?_, ?_, ?_⟩
  · rw [generateOTP_eq_zeroPad6, hmod]
  · intro r₂ h₂ heq
    have hval₂ : otpToNat (generateOTP r₂) = 100000 + r₂ := by
      rw [otpToNat_generateOTP, Nat.mod_eq_of_lt h₂]
    have := congrArg otpToNat heq
    omega
  · intro n hn1 hn2
    refine ⟨n - 100000, by omega, ?_⟩
    rw [otpToNat_generateOTP, Nat.mod_eq_of_lt (by omega)]
    omega

/-- C6 witness: the code for seed 23456 is the 6-digit string "123456" with
value 123456. -/
theorem generateOTP_spec_witness :
    (generateOTP 23456).length = 6 ∧
    otpToNat (generateOTP 23456) = 100000 + 23456 ∧
    generateOTP 23456 = zeroPad6 (100000 + 23456) :=
  ⟨(generateOTP_spec 23456 (by decide)).1,
   (generateOTP_spec 23456 (by decide)).2.2.1,
   (generateOTP_spec 23456 (by decide)).2.2.2.2.2.1⟩

end OtpService
